import Mathlib

/-!
Verification of the procrastination-detection engine in
`sistem_deteksi_prokrastinasi (terminal)/deteksi_prokrastinasi.py`.

The Python engine (class `SistemDeteksiProkrastinasi`) is shallowly embedded:
* calendar dates (strings parsed with `pd.to_datetime` / `strptime('%Y-%m-%d')`)
  become epoch-day integers `ℤ`; the current instant `datetime.now()` becomes a
  rational number of days since the epoch;
* floats become `ℚ`; Python's `round(x, 2)` / pandas `.round(2)` (round half to
  even) becomes `round2`; `int(x)` on nonnegative floats and `timedelta.days`
  become rational floors;
* the mutable fields of the class (`aktivitas`, `tugas`, the cached
  `metrik_prokrastinasi` snapshot) become a `Sistem` record threaded explicitly
  through the two methods that touch the cache;
* the `{"error": ...}` dictionaries returned on bad input become `Except ErrorKind`.
-/

namespace Deteksi

/- `Rat.mul`, `Rat.add`, ... are `@[irreducible]` in Batteries, which blocks the
`decide` tactic's reduction of concrete rational computations; restore the
default reducibility for this development. -/
attribute [local semireducible] Rat.mul Rat.inv Rat.add Rat.sub Rat.ofScientific

/-- Floor of a rational number, written computably (`⌊q⌋ = q.num / q.den`,
`Rat.floor_def`). Models Python's `timedelta.days` and `int()` on nonnegative
values. -/
def ratFloor (q : ℚ) : ℤ := q.num / (q.den : ℤ)

/-- Round a rational to the nearest integer, ties to even: the rounding mode of
Python's builtin `round` and of numpy/pandas `.round`. -/
def roundHalfEven (q : ℚ) : ℤ :=
  let f := ratFloor q
  let r := q - (f : ℚ)
  if r < 1/2 then f
  else if 1/2 < r then f + 1
  else if f % 2 = 0 then f else f + 1

/-- Python's `round(x, 2)` / pandas `.round(2)`: round to two decimal places,
ties to even. -/
def round2 (q : ℚ) : ℚ := (roundHalfEven (q * 100) : ℚ) / 100

/-- Activity categories: the `jenis` field of `AktivitasMahasiswa`
(`'belajar'`, `'tugas'`, `'istirahat'`, `'hiburan'`, `'lainnya'`). -/
inductive Jenis
  | belajar
  | tugas
  | istirahat
  | hiburan
  | lainnya
  deriving DecidableEq, Repr

/-- Task statuses: the `status` field of `TugasMahasiswa`
(`'belum'`, `'dikerjakan'`, `'selesai'`, `'terlambat'`). -/
inductive Status
  | belum
  | dikerjakan
  | selesai
  | terlambat
  deriving DecidableEq, Repr

/-- The `AktivitasMahasiswa` dataclass.  `tanggal` is an epoch-day number (the
Python field is a date string that `pd.to_datetime` parses before use);
`waktu_mulai` stays a raw string because the engine parses it fail-soft. -/
structure AktivitasMahasiswa where
  id_aktivitas : ℕ
  jenis : Jenis
  deskripsi : String
  durasi : ℚ
  tanggal : ℤ
  waktu_mulai : String
  deadline_terkait : Option ℤ := none
  tingkat_kesulitan : ℕ := 1
  produktivitas : ℕ := 3
  deriving DecidableEq, Repr

/-- The `TugasMahasiswa` dataclass, with date strings replaced by epoch days. -/
structure TugasMahasiswa where
  id_tugas : ℕ
  mata_kuliah : String
  deskripsi : String
  deadline : ℤ
  tanggal_diberikan : ℤ
  status : Status
  tanggal_selesai : Option ℤ := none
  tingkat_kesulitan : ℕ := 3
  estimasi_waktu : ℚ := 5
  waktu_aktual : Option ℚ := none
  deriving DecidableEq, Repr

/-- The typed errors of the engine: `EmptyDataError` models the
`{"error": "Tidak ada data aktivitas/tugas"}` returns, `InvalidDateFormatError`
the `{"error": "Format deadline tidak valid..."}` return. -/
inductive ErrorKind
  | EmptyDataError
  | InvalidDateFormatError
  deriving DecidableEq, Repr

/-- All five activity categories, the possible keys of
`df_aktivitas.groupby('jenis')`. -/
def kategoriList : List Jenis :=
  [.belajar, .tugas, .istirahat, .hiburan, .lainnya]

/-- Total duration logged under one category:
`df_aktivitas.groupby('jenis')['durasi'].sum()` at key `j`. -/
def durasiJenis (akt : List AktivitasMahasiswa) (j : Jenis) : ℚ :=
  ((akt.filter (fun a => a.jenis == j)).map (·.durasi)).sum

/-- Total logged duration, `distribusi_waktu.sum()`. -/
def totalDurasi (akt : List AktivitasMahasiswa) : ℚ :=
  (akt.map (·.durasi)).sum

/-- The categories actually present in the data: the groupby keys
(a category appears iff some activity has that `jenis`). -/
def jenisHadir (akt : List AktivitasMahasiswa) : List Jenis :=
  kategoriList.filter (fun j => akt.any (fun a => a.jenis == j))

/-- Percentage of total time spent in category `j`:
`(distribusi_waktu / total_waktu * 100).round(2)` at key `j`. -/
def persentaseWaktu (akt : List AktivitasMahasiswa) (j : Jenis) : ℚ :=
  round2 (durasiJenis akt j / totalDurasi akt * 100)

/-- Numeric value of a list of decimal digit characters. -/
def digitsVal (cs : List Char) : ℕ :=
  cs.foldl (fun n c => n * 10 + (c.toNat - 48)) 0

/-- Parse `HH:MM` as `datetime.strptime(s, '%H:%M')` does: one or two digits for
the hour (0–23), a colon, one or two digits for the minute (0–59), nothing
else. -/
def parseHHMM (s : String) : Option (ℕ × ℕ) :=
  match s.toList.splitOn ':' with
  | [hs, ms] =>
    if hs ≠ [] ∧ hs.length ≤ 2 ∧ hs.all (·.isDigit) ∧
       ms ≠ [] ∧ ms.length ≤ 2 ∧ ms.all (·.isDigit) then
      let h := digitsVal hs
      let m := digitsVal ms
      if h ≤ 23 ∧ m ≤ 59 then some (h, m) else none
    else none
  | _ => none

/-- The engine's `parse_waktu_mulai`: parse the start time, defaulting to 12:00
when the string does not parse (`except (ValueError, TypeError)` branch). -/
def parse_waktu_mulai (s : String) : ℕ × ℕ :=
  (parseHHMM s).getD (12, 0)

/-- Hour of day assigned to an activity, the `jam` column
(`datetime.combine(tanggal, parse_waktu_mulai(waktu_mulai)).hour`). -/
def jamAktivitas (a : AktivitasMahasiswa) : ℕ :=
  (parse_waktu_mulai a.waktu_mulai).1

/-- The four fixed periods of the day used by `kategorikan_jam`. -/
inductive Periode
  | pagi
  | siang
  | soreMalam
  | tengahMalam
  deriving DecidableEq, Repr

/-- The engine's `kategorikan_jam`: bucket an hour of day into a period
(`Pagi` [5,12), `Siang` [12,17), `Sore/Malam` [17,22), else `Tengah Malam`). -/
def kategorikan_jam (jam : ℕ) : Periode :=
  if 5 ≤ jam ∧ jam < 12 then .pagi
  else if 12 ≤ jam ∧ jam < 17 then .siang
  else if 17 ≤ jam ∧ jam < 22 then .soreMalam
  else .tengahMalam

/-- All four periods, the possible keys of the `periode_hari` groupby. -/
def periodeList : List Periode := [.pagi, .siang, .soreMalam, .tengahMalam]

/-- Period assigned to one activity. -/
def periodeAktivitas (a : AktivitasMahasiswa) : Periode :=
  kategorikan_jam (jamAktivitas a)

/-- Mean productivity of a list of activities (`['produktivitas'].mean()`). -/
def meanProduktivitas (akt : List AktivitasMahasiswa) : ℚ :=
  (akt.map (fun a => (a.produktivitas : ℚ))).sum / akt.length

/-- The dictionary returned by `analisis_pola_waktu`; the two groupby results
are association lists over the keys present in the data. -/
structure HasilAnalisisWaktu where
  distribusi_waktu : List (Jenis × ℚ)
  persentase_waktu : List (Jenis × ℚ)
  total_waktu_tercatat : ℚ
  waktu_produktif : List (Periode × ℚ)
  rata_rata_produktivitas : ℚ
  deriving DecidableEq, Repr

/-- The engine's `analisis_pola_waktu`: category totals and percentages,
per-period mean productivity, overall mean productivity; error on an empty
activity list. -/
def analisis_pola_waktu (akt : List AktivitasMahasiswa) :
    Except ErrorKind HasilAnalisisWaktu :=
  if akt.isEmpty then .error .EmptyDataError
  else .ok
    { distribusi_waktu := (jenisHadir akt).map (fun j => (j, durasiJenis akt j))
      persentase_waktu := (jenisHadir akt).map (fun j => (j, persentaseWaktu akt j))
      total_waktu_tercatat := totalDurasi akt
      waktu_produktif :=
        if akt.isEmpty then []
        else (periodeList.filter (fun p => akt.any (fun a => periodeAktivitas a == p))).map
          (fun p => (p, meanProduktivitas (akt.filter (fun a => periodeAktivitas a == p))))
      rata_rata_produktivitas :=
        if akt.isEmpty then 0 else meanProduktivitas akt }

/-- Entry `faktor_penilaian['keterlambatan']` (factor 1, weight 0–3). -/
structure FaktorKeterlambatan where
  skor : ℕ
  persentase_terlambat : ℚ
  jumlah_tugas_terlambat : ℕ
  total_tugas : ℕ
  deriving DecidableEq, Repr

/-- Entry `faktor_penilaian['waktu_pengerjaan']` (factor 2, weight 0–3). -/
structure FaktorWaktu where
  skor : ℕ
  rata_rata_hari : ℚ
  jumlah_tugas_selesai : ℕ
  deriving DecidableEq, Repr

/-- Entry `faktor_penilaian['rasio_hiburan']` (factor 3, weight 0–3). -/
structure FaktorRasio where
  skor : ℕ
  persentase_hiburan : ℚ
  persentase_produktif : ℚ
  waktu_hiburan : ℚ
  waktu_produktif : ℚ
  deriving DecidableEq, Repr

/-- Entry `faktor_penilaian['konsistensi']` (factor 4, weight 0–2).  The Python
code stores the sample standard deviation `aktivitas_harian.std()`; here the
sample variance (its square) is stored instead, so that the record stays inside
`ℚ`; the threshold comparisons are expressed on the variance
(`std > c ↔ var > c²` for `c ≥ 0`). -/
structure FaktorKonsistensi where
  skor : ℕ
  variansi_aktivitas : ℚ
  rata_aktivitas_harian : ℚ
  jumlah_hari : ℕ
  deriving DecidableEq, Repr

/-- Factor 1 of `hitung_indeks_prokrastinasi`: share of tasks with
`status == 'terlambat'`, scored `>30% → 3; >15% → 2; >0% → 1; else 0`. -/
def faktorKeterlambatanOf (tugas : List TugasMahasiswa) : FaktorKeterlambatan :=
  let tugas_terlambat := (tugas.filter (fun t => t.status == .terlambat)).length
  let total_tugas := tugas.length
  let persentase_terlambat : ℚ :=
    if 0 < total_tugas then (tugas_terlambat : ℚ) / total_tugas * 100 else 0
  let skor_keterlambatan : ℕ :=
    if 30 < persentase_terlambat then 3
    else if 15 < persentase_terlambat then 2
    else if 0 < persentase_terlambat then 1
    else 0
  { skor := skor_keterlambatan
    persentase_terlambat := round2 persentase_terlambat
    jumlah_tugas_terlambat := tugas_terlambat
    total_tugas := total_tugas }

/-- The tasks selected by the factor-2 mask
`df_tugas['tanggal_selesai'].notna()`: presence of `tanggal_selesai` only, the
`status` field plays no part. -/
def tugasSelesai (tugas : List TugasMahasiswa) : List TugasMahasiswa :=
  tugas.filter (fun t => t.tanggal_selesai.isSome)

/-- Mean completion lag in days over the masked tasks:
`(tanggal_selesai - tanggal_diberikan).dt.days` averaged. -/
def rataWaktuPengerjaan (tugas : List TugasMahasiswa) : ℚ :=
  (((tugasSelesai tugas).map
      (fun t => ((t.tanggal_selesai.getD 0 - t.tanggal_diberikan : ℤ) : ℚ))).sum) /
    (tugasSelesai tugas).length

/-- Factor 2 of `hitung_indeks_prokrastinasi`, present only when at least one
task has `tanggal_selesai` (`.notna().any()`); scored
`mean>14 → 3; >7 → 2; >3 → 1; else 0`. -/
def faktorWaktuOf (tugas : List TugasMahasiswa) : Option FaktorWaktu :=
  if (tugasSelesai tugas).isEmpty then none
  else
    let rata := rataWaktuPengerjaan tugas
    let skor_waktu : ℕ :=
      if 14 < rata then 3
      else if 7 < rata then 2
      else if 3 < rata then 1
      else 0
    some { skor := skor_waktu
           rata_rata_hari := round2 rata
           jumlah_tugas_selesai := (tugasSelesai tugas).length }

/-- Factor 3 of `hitung_indeks_prokrastinasi`: entertainment share of total
activity time, present only for a nonempty activity list with positive total
duration; scored `>40% → 3; >25% → 2; >15% → 1; else 0`. -/
def faktorRasioOf (akt : List AktivitasMahasiswa) : Option FaktorRasio :=
  if akt.isEmpty then none
  else
    let waktu_belajar := durasiJenis akt .belajar
    let waktu_tugas := durasiJenis akt .tugas
    let waktu_hiburan := durasiJenis akt .hiburan
    let total_waktu := totalDurasi akt
    if 0 < total_waktu then
      let waktu_produktif := waktu_belajar + waktu_tugas
      let rasio_hiburan := waktu_hiburan / total_waktu * 100
      let rasio_produktif := waktu_produktif / total_waktu * 100
      let skor_rasio : ℕ :=
        if 40 < rasio_hiburan then 3
        else if 25 < rasio_hiburan then 2
        else if 15 < rasio_hiburan then 1
        else 0
      some { skor := skor_rasio
             persentase_hiburan := round2 rasio_hiburan
             persentase_produktif := round2 rasio_produktif
             waktu_hiburan := round2 waktu_hiburan
             waktu_produktif := round2 waktu_produktif }
    else none

/-- Daily activity counts, `df_aktivitas.groupby('tanggal').size()`: one count
per distinct date. -/
def aktivitasHarian (akt : List AktivitasMahasiswa) : List ℕ :=
  ((akt.map (·.tanggal)).dedup).map
    (fun d => (akt.filter (fun a => a.tanggal == d)).length)

/-- Sample variance (pandas `.std()` squared, `ddof = 1`) of a list of counts. -/
def variansiHarian (xs : List ℕ) : ℚ :=
  let n : ℚ := xs.length
  let mean := (xs.map (fun k => (k : ℚ))).sum / n
  (xs.map (fun k => ((k : ℚ) - mean) * ((k : ℚ) - mean))).sum / (n - 1)

/-- Factor 4 of `hitung_indeks_prokrastinasi`: spread of the daily activity
counts, present only when activities span at least two distinct dates; the code
scores `std>3 → 2; std>1.5 → 1; else 0`, expressed here on the variance as
`var>9 → 2; var>9/4 → 1; else 0`. -/
def faktorKonsistensiOf (akt : List AktivitasMahasiswa) : Option FaktorKonsistensi :=
  if akt.isEmpty then none
  else
    let harian := aktivitasHarian akt
    if 1 < harian.length then
      let var := variansiHarian harian
      let skor_konsistensi : ℕ :=
        if 9 < var then 2
        else if 9/4 < var then 1
        else 0
      some { skor := skor_konsistensi
             variansi_aktivitas := var
             rata_aktivitas_harian := round2 ((harian.map (fun k => (k : ℚ))).sum / harian.length)
             jumlah_hari := harian.length }
    else none

/-- Raw score `skor_total`: sum of the sub-scores of the factors that were
actually assessed. -/
def skorMentahOf (tugas : List TugasMahasiswa) (akt : List AktivitasMahasiswa) : ℕ :=
  (faktorKeterlambatanOf tugas).skor +
    ((faktorWaktuOf tugas).map (·.skor)).getD 0 +
    ((faktorRasioOf akt).map (·.skor)).getD 0 +
    ((faktorKonsistensiOf akt).map (·.skor)).getD 0

/-- The five interpretation tiers (`tingkat_prokrastinasi`). -/
inductive Tingkat
  | RENDAH
  | RENDAH_SEDANG
  | SEDANG
  | SEDANG_TINGGI
  | TINGGI
  deriving DecidableEq, Repr

/-- Fixed recommendation string attached to each tier. -/
def rekomendasiOf : Tingkat → String
  | .TINGGI => "‚ö†Ô∏è PERLU INTERVENSI SERIUS! Tingkat prokrastinasi sangat tinggi. Segera konsultasi dengan pembimbing akademik dan pertimbangkan bantuan profesional."
  | .SEDANG_TINGGI => "‚è∞ PERLU PERBAIKAN SEGERA! Manajemen waktu tidak optimal. Buat jadwal harian yang ketat, gunakan teknik Pomodoro, dan tetapkan deadline internal."
  | .SEDANG => "üìù PERLU PERBAIKAN. Ada beberapa pola prokrastinasi. Mulai dengan membuat prioritas tugas dan kurangi waktu hiburan selama periode sibuk."
  | .RENDAH_SEDANG => "‚úÖ CUKUP BAIK. Pertahankan kebiasaan baik. Fokus pada konsistensi dan coba selesaikan tugas lebih awal dari deadline."
  | .RENDAH => "üéâ SANGAT BAIK! Tingkat prokrastinasi rendah. Pertahankan kebiasaan produktif dan disiplin yang sudah ada."

/-- The tier / recommendation branch of `hitung_indeks_prokrastinasi`, applied
to the (unrounded) normalized score: `≥8.0 → TINGGI; ≥6.0 → SEDANG-TINGGI;
≥4.0 → SEDANG; ≥2.0 → RENDAH-SEDANG; else RENDAH`. -/
def interpretasi (skor_normalized : ℚ) : Tingkat × String :=
  if 8 ≤ skor_normalized then (.TINGGI, rekomendasiOf .TINGGI)
  else if 6 ≤ skor_normalized then (.SEDANG_TINGGI, rekomendasiOf .SEDANG_TINGGI)
  else if 4 ≤ skor_normalized then (.SEDANG, rekomendasiOf .SEDANG)
  else if 2 ≤ skor_normalized then (.RENDAH_SEDANG, rekomendasiOf .RENDAH_SEDANG)
  else (.RENDAH, rekomendasiOf .RENDAH)

/-- The `metrik_prokrastinasi` dictionary: `skor_total` holds the normalized
score rounded to two decimals (as stored by the code), `skor_mentah` the raw
sum, and the factor breakdown keeps one optional entry per conditional factor. -/
structure MetrikProkrastinasi where
  skor_total : ℚ
  skor_mentah : ℕ
  maksimum_skor : ℕ
  tingkat : Tingkat
  keterlambatan : FaktorKeterlambatan
  waktu_pengerjaan : Option FaktorWaktu
  rasio_hiburan : Option FaktorRasio
  konsistensi : Option FaktorKonsistensi
  rekomendasi : String
  deriving DecidableEq, Repr

/-- Body of `hitung_indeks_prokrastinasi` after the empty-task guard. -/
def hitungCore (tugas : List TugasMahasiswa) (akt : List AktivitasMahasiswa) :
    MetrikProkrastinasi :=
  let skor_total := skorMentahOf tugas akt
  let maksimum_skor : ℕ := 11
  let skor_norm₀ : ℚ :=
    if 0 < skor_total then (skor_total : ℚ) / (maksimum_skor : ℚ) * 10 else 0
  let skor_normalized := min 10 skor_norm₀
  let tr := interpretasi skor_normalized
  { skor_total := round2 skor_normalized
    skor_mentah := skor_total
    maksimum_skor := maksimum_skor
    tingkat := tr.1
    keterlambatan := faktorKeterlambatanOf tugas
    waktu_pengerjaan := faktorWaktuOf tugas
    rasio_hiburan := faktorRasioOf akt
    konsistensi := faktorKonsistensiOf akt
    rekomendasi := tr.2 }

/-- The engine's `hitung_indeks_prokrastinasi` as a pure function of the task
and activity lists; errors on an empty task list. -/
def hitung_indeks_prokrastinasi (tugas : List TugasMahasiswa)
    (akt : List AktivitasMahasiswa) : Except ErrorKind MetrikProkrastinasi :=
  if tugas.isEmpty then .error .EmptyDataError
  else .ok (hitungCore tugas akt)

/-- Gregorian leap-year test. -/
def kabisat (y : ℕ) : Bool :=
  y % 4 = 0 && (y % 100 != 0 || y % 400 = 0)

/-- Days in a month of the proleptic Gregorian calendar. -/
def hariDalamBulan (y m : ℕ) : ℕ :=
  if m = 2 then (if kabisat y then 29 else 28)
  else if m = 4 ∨ m = 6 ∨ m = 9 ∨ m = 11 then 30
  else 31

/-- Epoch-day number (days since 1970-01-01) of a Gregorian date with year
≥ 1, by the standard days-from-civil computation. -/
def epochDay (y m d : ℕ) : ℤ :=
  let y' := if m ≤ 2 then y - 1 else y
  let era := y' / 400
  let yoe := y' - era * 400
  let mp := if 2 < m then m - 3 else m + 9
  let doy := (153 * mp + 2) / 5 + (d - 1)
  let doe := yoe * 365 + yoe / 4 - yoe / 100 + doy
  ((era * 146097 + doe : ℕ) : ℤ) - 719468

/-- Parse a deadline string as `datetime.strptime(s, '%Y-%m-%d')` does:
exactly four digits of year, one or two digits of month and day, and a valid
calendar date with year ≥ 1 (`datetime.MINYEAR`); the result is the epoch-day
number of the date. -/
def parseTanggal (s : String) : Option ℤ :=
  match s.toList.splitOn '-' with
  | [ys, ms, ds] =>
    if ys.length = 4 ∧ ys.all (·.isDigit) ∧
       ms ≠ [] ∧ ms.length ≤ 2 ∧ ms.all (·.isDigit) ∧
       ds ≠ [] ∧ ds.length ≤ 2 ∧ ds.all (·.isDigit) then
      let y := digitsVal ys
      let m := digitsVal ms
      let d := digitsVal ds
      if 1 ≤ y ∧ 1 ≤ m ∧ m ≤ 12 ∧ 1 ≤ d ∧ d ≤ hariDalamBulan y m then
        some (epochDay y m d)
      else none
    else none
  | _ => none

/-- The four risk categories of `prediksi_risiko_tugas`. -/
inductive KategoriRisiko
  | SANGAT_TINGGI
  | TINGGI
  | SEDANG
  | RENDAH
  deriving DecidableEq, Repr

/-- Fixed action advice attached to each risk category. -/
def tindakanOf : KategoriRisiko → String
  | .SANGAT_TINGGI => "Segera mulai kerjakan hari ini! Buat rencana harian."
  | .TINGGI => "Buat deadline internal lebih awal dari deadline sebenarnya."
  | .SEDANG => "Breakdown tugas menjadi subtask kecil."
  | .RENDAH => "Pertahankan konsistensi pengerjaan."

/-- The helper `_prediksi_tanggal_selesai`: predicted completion date (an
epoch day) from the remaining days and the adjusted risk; `now` is the current
instant in days, so `⌊now⌋` is today's date and `int(hari_tersisa * frac)`
becomes a rational floor (its argument is nonnegative here). -/
def prediksiTanggalSelesai (now : ℚ) (hari_tersisa : ℤ) (risiko : ℚ) : ℤ :=
  if hari_tersisa ≤ 0 then ratFloor now
  else
    let hari_prediksi :=
      if 7/10 < risiko then max 1 (ratFloor ((hari_tersisa : ℚ) * (2/10)))
      else if 5/10 < risiko then max 1 (ratFloor ((hari_tersisa : ℚ) * (4/10)))
      else if 3/10 < risiko then max 1 (ratFloor ((hari_tersisa : ℚ) * (6/10)))
      else max 1 (ratFloor ((hari_tersisa : ℚ) * (8/10)))
    ratFloor now + hari_prediksi

/-- The result dictionary of `prediksi_risiko_tugas`. -/
structure PrediksiRisiko where
  deadline : String
  hari_tersisa : ℤ
  tingkat_kesulitan : ℕ
  skor_risiko : ℚ
  kategori_risiko : KategoriRisiko
  tindakan_rekomendasi : String
  prediksi_selesai : ℤ
  deriving DecidableEq, Repr

/-- Body of `prediksi_risiko_tugas` once the deadline parsed to epoch day `d`:
`faktor_skor` is the cached normalized score (or the 5.0 default), `now` the
current instant in days (`datetime.now()`), so `(deadline_dt - hari_ini).days`
is `⌊d - now⌋`. -/
def prediksiCore (faktor_skor : ℚ) (deadline : String) (d : ℤ)
    (tingkat_kesulitan : ℕ) (now : ℚ) : PrediksiRisiko :=
  let hari_tersisa₀ := ratFloor ((d : ℚ) - now)
  let hari_tersisa := if hari_tersisa₀ < 0 then 0 else hari_tersisa₀
  let faktor_kesulitan : ℚ := (tingkat_kesulitan : ℚ) / 10
  let risiko_dasar := faktor_skor / 10 * (6/10) + faktor_kesulitan * (4/10)
  let risiko_penyesuaian :=
    if hari_tersisa < 3 then min 1 (risiko_dasar * (15/10))
    else if hari_tersisa < 7 then min 1 (risiko_dasar * (12/10))
    else min 1 risiko_dasar
  let kategori_risiko : KategoriRisiko :=
    if 7/10 < risiko_penyesuaian then .SANGAT_TINGGI
    else if 5/10 < risiko_penyesuaian then .TINGGI
    else if 3/10 < risiko_penyesuaian then .SEDANG
    else .RENDAH
  { deadline := deadline
    hari_tersisa := hari_tersisa
    tingkat_kesulitan := tingkat_kesulitan
    skor_risiko := round2 (risiko_penyesuaian * 10)
    kategori_risiko := kategori_risiko
    tindakan_rekomendasi := tindakanOf kategori_risiko
    prediksi_selesai := prediksiTanggalSelesai now hari_tersisa risiko_penyesuaian }

/-- The mutable state of a `SistemDeteksiProkrastinasi` instance:
`metrik_prokrastinasi` is the cached metrics snapshot (`none` models the empty
dictionary the constructor installs). -/
structure Sistem where
  nama_mahasiswa : String
  nim : String
  aktivitas : List AktivitasMahasiswa
  tugas : List TugasMahasiswa
  metrik_prokrastinasi : Option MetrikProkrastinasi
  deriving DecidableEq, Repr

/-- `hitung_indeks_prokrastinasi` as a method: on success the snapshot is
overwritten with the fresh metrics; the empty-task early return leaves the
state untouched. -/
def hitungStep (s : Sistem) : Sistem × Except ErrorKind MetrikProkrastinasi :=
  match hitung_indeks_prokrastinasi s.tugas s.aktivitas with
  | .ok m => ({ s with metrik_prokrastinasi := some m }, .ok m)
  | .error e => (s, .error e)

/-- The engine's `prediksi_risiko_tugas` as a method: recompute the metrics
first when no snapshot is cached, then parse the deadline
(`InvalidDateFormatError` on failure) and build the prediction from the cached
score, defaulting to 5.0 (`.get('skor_total', 5.0)`) when the cache is still
empty. -/
def prediksi_risiko_tugas (s : Sistem) (deadline : String)
    (tingkat_kesulitan : ℕ) (now : ℚ) : Sistem × Except ErrorKind PrediksiRisiko :=
  let s1 := if s.metrik_prokrastinasi.isNone then (hitungStep s).1 else s
  match parseTanggal deadline with
  | none => (s1, .error .InvalidDateFormatError)
  | some d =>
    let faktor_skor : ℚ :=
      match s1.metrik_prokrastinasi with
      | some m => m.skor_total
      | none => 5
    (s1, .ok (prediksiCore faktor_skor deadline d tingkat_kesulitan now))

/-! Concrete records used to instantiate the theorems below. -/

/-- The task set of the spec's worked example: two late tasks and one task
completed 19 days after assignment (2024-01-01 → 2024-01-20). -/
def contohTugas : List TugasMahasiswa :=
  [ { id_tugas := 1, mata_kuliah := "MK1", deskripsi := "T1",
      deadline := epochDay 2024 1 10, tanggal_diberikan := epochDay 2024 1 1,
      status := .terlambat },
    { id_tugas := 2, mata_kuliah := "MK2", deskripsi := "T2",
      deadline := epochDay 2024 1 15, tanggal_diberikan := epochDay 2024 1 1,
      status := .terlambat },
    { id_tugas := 3, mata_kuliah := "MK3", deskripsi := "T3",
      deadline := epochDay 2024 1 25, tanggal_diberikan := epochDay 2024 1 1,
      status := .selesai, tanggal_selesai := some (epochDay 2024 1 20) } ]

/-- Five activities, one per category, whose exact percentages 20.004, 20.004,
20.004, 20.004 and 19.984 all round downward. -/
def limaAktivitas : List AktivitasMahasiswa :=
  [ { id_aktivitas := 1, jenis := .belajar, deskripsi := "a", durasi := 20004/1000,
      tanggal := 0, waktu_mulai := "08:00" },
    { id_aktivitas := 2, jenis := .tugas, deskripsi := "b", durasi := 20004/1000,
      tanggal := 0, waktu_mulai := "09:00" },
    { id_aktivitas := 3, jenis := .istirahat, deskripsi := "c", durasi := 20004/1000,
      tanggal := 0, waktu_mulai := "10:00" },
    { id_aktivitas := 4, jenis := .hiburan, deskripsi := "d", durasi := 20004/1000,
      tanggal := 0, waktu_mulai := "11:00" },
    { id_aktivitas := 5, jenis := .lainnya, deskripsi := "e", durasi := 19984/1000,
      tanggal := 0, waktu_mulai := "12:00" } ]

/-- A single one-hour study activity. -/
def satuAktivitas : List AktivitasMahasiswa :=
  [ { id_aktivitas := 1, jenis := .belajar, deskripsi := "a", durasi := 1,
      tanggal := 0, waktu_mulai := "08:00" } ]

/-- An activity whose `waktu_mulai` is not `HH:MM`. -/
def aktRusak : AktivitasMahasiswa :=
  { id_aktivitas := 1, jenis := .belajar, deskripsi := "a", durasi := 2,
    tanggal := 0, waktu_mulai := "pagi hari" }

/-- A single-element activity list around `aktRusak`. -/
def aktivitasWaktuRusak : List AktivitasMahasiswa := [aktRusak]

/-- A single completed task. -/
def satuTugas : List TugasMahasiswa :=
  [ { id_tugas := 1, mata_kuliah := "MK1", deskripsi := "T1",
      deadline := epochDay 2024 1 10, tanggal_diberikan := epochDay 2024 1 1,
      status := .selesai, tanggal_selesai := some (epochDay 2024 1 5) } ]

/-- A session with no data and no cached metrics snapshot. -/
def sistemKosong : Sistem :=
  { nama_mahasiswa := "A", nim := "1", aktivitas := [], tugas := [],
    metrik_prokrastinasi := none }

/-! Arithmetic facts about the embedded rounding. -/

theorem ratFloor_eq_floor (q : ℚ) : ratFloor q = ⌊q⌋ := Rat.floor_def.symm

theorem abs_roundHalfEven_sub (q : ℚ) : |((roundHalfEven q : ℤ) : ℚ) - q| ≤ 1/2 := by
  have hfl : ((ratFloor q : ℤ) : ℚ) ≤ q := by
    rw [ratFloor_eq_floor]; exact_mod_cast Int.floor_le q
  have hlt : q < ((ratFloor q : ℤ) : ℚ) + 1 := by
    rw [ratFloor_eq_floor]; exact_mod_cast Int.lt_floor_add_one q
  rw [roundHalfEven]
  split_ifs with h1 h2 h3 <;>
    (rw [abs_le]; push_cast; constructor <;> linarith)

theorem abs_round2_sub (q : ℚ) : |round2 q - q| ≤ 1/200 := by
  have hq : round2 q - q = (((roundHalfEven (q * 100) : ℤ) : ℚ) - q * 100) / 100 := by
    rw [round2]; ring
  rw [hq, abs_div, abs_of_nonneg (by norm_num : (0:ℚ) ≤ 100)]
  linarith [abs_roundHalfEven_sub (q * 100)]

theorem round2_nonneg {q : ℚ} (h : 0 ≤ q) : 0 ≤ round2 q := by
  have h2 := abs_le.1 (abs_roundHalfEven_sub (q * 100))
  have hgt : (-1 : ℚ) < ((roundHalfEven (q * 100) : ℤ) : ℚ) := by nlinarith
  have hz : (0 : ℤ) ≤ roundHalfEven (q * 100) := by
    have : (-1 : ℤ) < roundHalfEven (q * 100) := by exact_mod_cast hgt
    omega
  rw [round2]
  exact div_nonneg (by exact_mod_cast hz) (by norm_num)

theorem round2_le_ten {q : ℚ} (h : q ≤ 10) : round2 q ≤ 10 := by
  have h2 := abs_le.1 (abs_roundHalfEven_sub (q * 100))
  have hlt : ((roundHalfEven (q * 100) : ℤ) : ℚ) < 1001 := by nlinarith
  have hz : roundHalfEven (q * 100) ≤ 1000 := by
    have : roundHalfEven (q * 100) < 1001 := by exact_mod_cast hlt
    omega
  rw [round2, div_le_iff₀ (by norm_num : (0:ℚ) < 100)]
  have : ((roundHalfEven (q * 100) : ℤ) : ℚ) ≤ 1000 := by exact_mod_cast hz
  linarith

/-! Summation facts about the category distribution. -/

theorem sum_durasi_kategori (akt : List AktivitasMahasiswa) :
    (kategoriList.map (durasiJenis akt)).sum = totalDurasi akt := by
  induction akt with
  | nil => simp [durasiJenis, totalDurasi, kategoriList]
  | cons a l ih =>
    cases h : a.jenis <;>
      (simp [durasiJenis, kategoriList, totalDurasi, List.filter_cons, h] at ih ⊢;
        linarith [ih])

theorem sum_filter_zero {α : Type} (l : List α) (q : α → Bool) (f : α → ℚ)
    (h : ∀ x ∈ l, q x = false → f x = 0) :
    ((l.filter q).map f).sum = (l.map f).sum := by
  induction l with
  | nil => simp
  | cons a t ih =>
    have ih' := ih (fun x hx hf => h x (List.mem_cons_of_mem _ hx) hf)
    by_cases hq : q a
    · simp [List.filter_cons, hq, ih']
    · have hz : f a = 0 := h a (List.mem_cons_self _ _) (by simpa using hq)
      simp [List.filter_cons, hq, ih', hz]

theorem durasiJenis_eq_zero (akt : List AktivitasMahasiswa) (j : Jenis)
    (h : akt.any (fun a => a.jenis == j) = false) : durasiJenis akt j = 0 := by
  have hnil : akt.filter (fun a => a.jenis == j) = [] := by
    rw [List.filter_eq_nil_iff]
    intro a ha
    simpa using (List.any_eq_false.1 h) a ha
  rw [durasiJenis, hnil]
  simp

theorem sum_durasi_hadir (akt : List AktivitasMahasiswa) :
    ((jenisHadir akt).map (durasiJenis akt)).sum = totalDurasi akt := by
  rw [jenisHadir,
    sum_filter_zero _ _ _ (fun j _ hq => durasiJenis_eq_zero akt j hq),
    sum_durasi_kategori]

theorem sum_map_scale (js : List Jenis) (f : Jenis → ℚ) (T : ℚ) :
    (js.map (fun j => f j / T * 100)).sum = (js.map f).sum / T * 100 := by
  induction js with
  | nil => simp
  | cons j t ih => simp [ih]; ring

theorem sum_round2_close (l : List ℚ) :
    |(l.map round2).sum - l.sum| ≤ l.length * (1/200) := by
  induction l with
  | nil => simp
  | cons a t ih =>
    simp only [List.map_cons, List.sum_cons, List.length_cons]
    have h1 := abs_round2_sub a
    have step : |round2 a + (t.map round2).sum - (a + t.sum)| ≤
        |round2 a - a| + |(t.map round2).sum - t.sum| := by
      have : round2 a + (t.map round2).sum - (a + t.sum) =
          (round2 a - a) + ((t.map round2).sum - t.sum) := by ring
      rw [this]
      exact abs_add _ _
    push_cast
    linarith

/-! Claim theorems. -/

/-- C1, counterexample: on the task set of the worked example (two tasks with
status `terlambat`, one completed task assigned 2024-01-01 and completed
2024-01-20), the Scorer's tier is `SEDANG` (MED) — not `SEDANG-TINGGI`
(MED_HIGH) as the claim states, because the normalized score 60/11 ≈ 5.45 is
below the 6.0 tier boundary. -/
theorem claim_C1_counterexample :
    hitung_indeks_prokrastinasi contohTugas [] = .ok (hitungCore contohTugas []) ∧
      (hitungCore contohTugas []).tingkat = Tingkat.SEDANG ∧
      Tingkat.SEDANG ≠ Tingkat.SEDANG_TINGGI :=
  ⟨rfl, by decide, by decide⟩

/-- C1 (amended): on the worked example's task set the Scorer produces lateness
factor score 3, completion-lag factor score 3 with mean lag 19 days, raw score
6, stored normalized score `round2 (6*10/11) = 5.45`, and tier `SEDANG`
(MED, not MED_HIGH). -/
theorem claim_C1 :
    ∃ m, hitung_indeks_prokrastinasi contohTugas [] = .ok m ∧
      m.keterlambatan.skor = 3 ∧
      m.waktu_pengerjaan.map (·.skor) = some 3 ∧
      m.waktu_pengerjaan.map (·.rata_rata_hari) = some 19 ∧
      m.skor_mentah = 6 ∧
      m.skor_total = round2 ((6 : ℚ) * 10 / 11) ∧
      m.skor_total = 109/20 ∧
      m.tingkat = Tingkat.SEDANG :=
  ⟨hitungCore contohTugas [], rfl, by decide, by decide, by decide, by decide,
    by decide, by decide, by decide⟩

/-- C2, counterexample: for five activities (one per category) with durations
20.004, 20.004, 20.004, 20.004 and 19.984 hours, the rounded category
percentages sum to 99.98, which misses 100 by 0.02 > 0.01. -/
theorem claim_C2_counterexample :
    ∃ r, analisis_pola_waktu limaAktivitas = .ok r ∧
      (r.persentase_waktu.map Prod.snd).sum = 4999/50 ∧
      ¬ (|(4999/50 : ℚ) - 100| ≤ 1/100) := by
  refine ⟨_, rfl, by decide, ?_⟩
  rw [show (4999/50 : ℚ) - 100 = -(1/50) by norm_num, abs_neg,
    abs_of_nonneg (by norm_num : (0:ℚ) ≤ 1/50)]
  norm_num

/-- C2 (amended): for every non-empty activity set with positive total
duration, the per-category percentages returned by `analisis_pola_waktu` (each
rounded to 2 decimals) sum to 100 within 0.025 — each of the at most five
present categories can contribute up to 0.005 of rounding error, so the
claimed 0.01 tolerance must be widened to 0.025. -/
theorem claim_C2 (akt : List AktivitasMahasiswa) (h1 : akt ≠ [])
    (h2 : 0 < totalDurasi akt) :
    ∃ r, analisis_pola_waktu akt = .ok r ∧
      |(r.persentase_waktu.map Prod.snd).sum - 100| ≤ 1/40 := by
  have hne : akt.isEmpty = false := by simpa [List.isEmpty_iff] using h1
  simp only [analisis_pola_waktu, hne, Bool.false_eq_true, if_false]
  refine ⟨_, rfl, ?_⟩
  have hsnd : (((jenisHadir akt).map (fun j => (j, persentaseWaktu akt j))).map
      Prod.snd) = ((jenisHadir akt).map
        (fun j => durasiJenis akt j / totalDurasi akt * 100)).map round2 := by
    rw [List.map_map, List.map_map]
    rfl
  have hsum : ((jenisHadir akt).map
      (fun j => durasiJenis akt j / totalDurasi akt * 100)).sum = 100 := by
    rw [sum_map_scale, sum_durasi_hadir, div_self (ne_of_gt h2)]
    norm_num
  have hlen : (((jenisHadir akt).map
      (fun j => durasiJenis akt j / totalDurasi akt * 100)).length : ℚ) ≤ 5 := by
    rw [List.length_map]
    have h5 : (jenisHadir akt).length ≤ 5 := by
      simpa [kategoriList] using List.length_filter_le
        (fun j => akt.any (fun a => a.jenis == j)) kategoriList
    exact_mod_cast h5
  have hb := sum_round2_close
    ((jenisHadir akt).map (fun j => durasiJenis akt j / totalDurasi akt * 100))
  rw [hsnd]
  rw [hsum] at hb
  linarith

/-- C2, witness: a single one-hour study activity satisfies the hypotheses of
the amended claim. -/
theorem claim_C2_witness :
    ∃ r, analisis_pola_waktu satuAktivitas = .ok r ∧
      |(r.persentase_waktu.map Prod.snd).sum - 100| ≤ 1/40 :=
  claim_C2 satuAktivitas (by decide) (by decide)

/-! Sub-score bounds for the raw-score invariant. -/

theorem skor_keterlambatan_le (tugas : List TugasMahasiswa) :
    (faktorKeterlambatanOf tugas).skor ≤ 3 := by
  simp only [faktorKeterlambatanOf]
  split_ifs <;> norm_num

theorem skor_waktu_le (tugas : List TugasMahasiswa) (f : FaktorWaktu)
    (h : faktorWaktuOf tugas = some f) : f.skor ≤ 3 := by
  simp only [faktorWaktuOf] at h
  split_ifs at h
  all_goals (injection h with h2; subst h2; norm_num)

theorem skor_rasio_le (akt : List AktivitasMahasiswa) (f : FaktorRasio)
    (h : faktorRasioOf akt = some f) : f.skor ≤ 3 := by
  simp only [faktorRasioOf] at h
  split_ifs at h
  all_goals (injection h with h2; subst h2; norm_num)

theorem skor_konsistensi_le (akt : List AktivitasMahasiswa) (f : FaktorKonsistensi)
    (h : faktorKonsistensiOf akt = some f) : f.skor ≤ 2 := by
  simp only [faktorKonsistensiOf] at h
  split_ifs at h
  all_goals (injection h with h2; subst h2; norm_num)

theorem skorMentah_le (tugas : List TugasMahasiswa) (akt : List AktivitasMahasiswa) :
    skorMentahOf tugas akt ≤ 11 := by
  have h1 := skor_keterlambatan_le tugas
  have h2 : ((faktorWaktuOf tugas).map (·.skor)).getD 0 ≤ 3 := by
    cases hw : faktorWaktuOf tugas with
    | none => simp
    | some f => simpa using skor_waktu_le tugas f hw
  have h3 : ((faktorRasioOf akt).map (·.skor)).getD 0 ≤ 3 := by
    cases hw : faktorRasioOf akt with
    | none => simp
    | some f => simpa using skor_rasio_le akt f hw
  have h4 : ((faktorKonsistensiOf akt).map (·.skor)).getD 0 ≤ 2 := by
    cases hw : faktorKonsistensiOf akt with
    | none => simp
    | some f => simpa using skor_konsistensi_le akt f hw
  rw [skorMentahOf]
  omega

/-- C3: for every non-empty task set and any activity set, the Scorer succeeds
with a raw score in [0,11] (the four sub-scores are bounded by 3, 3, 3, 2) and
a stored normalized score `round2 (min 10 (raw/11*10))` lying in [0,10].
(`skor_mentah : ℕ`, so `0 ≤ skor_mentah` is implicit in the type.) -/
theorem claim_C3 (tugas : List TugasMahasiswa) (akt : List AktivitasMahasiswa)
    (h : tugas ≠ []) :
    ∃ m, hitung_indeks_prokrastinasi tugas akt = .ok m ∧
      m.skor_mentah ≤ 11 ∧
      m.skor_total = round2 (min 10 ((m.skor_mentah : ℚ) / 11 * 10)) ∧
      0 ≤ m.skor_total ∧ m.skor_total ≤ 10 := by
  have hne : tugas.isEmpty = false := by simpa [List.isEmpty_iff] using h
  simp only [hitung_indeks_prokrastinasi, hne, Bool.false_eq_true, if_false]
  refine ⟨_, rfl, ?_, ?_, ?_, ?_⟩
  · simpa [hitungCore] using skorMentah_le tugas akt
  · simp only [hitungCore]
    have hnorm : (if 0 < skorMentahOf tugas akt
        then ((skorMentahOf tugas akt : ℕ) : ℚ) / ((11 : ℕ) : ℚ) * 10 else 0) =
        ((skorMentahOf tugas akt : ℕ) : ℚ) / 11 * 10 := by
      split_ifs with hpos
      · norm_num
      · have hz : skorMentahOf tugas akt = 0 := by omega
        rw [hz]
        norm_num
    rw [hnorm]
  · simp only [hitungCore]
    apply round2_nonneg
    apply le_min (by norm_num)
    split_ifs with hpos
    · positivity
    · norm_num
  · simp only [hitungCore]
    exact round2_le_ten (min_le_left _ _)

/-- C3, witness: one completed task and no activities. -/
theorem claim_C3_witness :
    ∃ m, hitung_indeks_prokrastinasi satuTugas [] = .ok m ∧
      m.skor_mentah ≤ 11 ∧
      m.skor_total = round2 (min 10 ((m.skor_mentah : ℚ) / 11 * 10)) ∧
      0 ≤ m.skor_total ∧ m.skor_total ≤ 10 :=
  claim_C3 satuTugas [] (by decide)

/-- C4: on [0,10] the tier mapping of the Scorer is the total non-overlapping
partition with inclusive lower bounds `≥8 → TINGGI (HIGH); ≥6 → SEDANG-TINGGI
(MED_HIGH); ≥4 → SEDANG (MED); ≥2 → RENDAH-SEDANG (LOW_MED); else RENDAH
(LOW)`, and the recommendation returned alongside is the fixed string of the
assigned tier. -/
theorem claim_C4 (s : ℚ) (_h0 : 0 ≤ s) (_h1 : s ≤ 10) :
    ((interpretasi s).1 = Tingkat.TINGGI ↔ 8 ≤ s) ∧
    ((interpretasi s).1 = Tingkat.SEDANG_TINGGI ↔ 6 ≤ s ∧ s < 8) ∧
    ((interpretasi s).1 = Tingkat.SEDANG ↔ 4 ≤ s ∧ s < 6) ∧
    ((interpretasi s).1 = Tingkat.RENDAH_SEDANG ↔ 2 ≤ s ∧ s < 4) ∧
    ((interpretasi s).1 = Tingkat.RENDAH ↔ s < 2) ∧
    (interpretasi s).2 = rekomendasiOf (interpretasi s).1 := by
  rw [interpretasi]
  split_ifs with h8 h6 h4 h2 <;>
    refine ⟨?_, ?_, ?_, ?_, ?_, rfl⟩ <;>
    simp [not_and] <;>
    intros <;>
    first
    | linarith
    | (constructor <;> linarith)

/-- C4, witness: the score 5 lies in [0,10] and is assigned tier `SEDANG`. -/
theorem claim_C4_witness :
    ((interpretasi 5).1 = Tingkat.TINGGI ↔ (8:ℚ) ≤ 5) ∧
    ((interpretasi 5).1 = Tingkat.SEDANG_TINGGI ↔ (6:ℚ) ≤ 5 ∧ (5:ℚ) < 8) ∧
    ((interpretasi 5).1 = Tingkat.SEDANG ↔ (4:ℚ) ≤ 5 ∧ (5:ℚ) < 6) ∧
    ((interpretasi 5).1 = Tingkat.RENDAH_SEDANG ↔ (2:ℚ) ≤ 5 ∧ (5:ℚ) < 4) ∧
    ((interpretasi 5).1 = Tingkat.RENDAH ↔ (5:ℚ) < 2) ∧
    (interpretasi 5).2 = rekomendasiOf (interpretasi 5).1 :=
  claim_C4 5 (by norm_num) (by norm_num)

/-- C5: for every activity in the data whose `waktu_mulai` fails to parse as
`HH:MM`, the engine substitutes 12:00 as that activity's time of day
(`parse_waktu_mulai` returns noon, so the activity's hour is 12) and
`analisis_pola_waktu` still completes normally — a malformed start time is
never fatal. -/
theorem claim_C5 (akt : List AktivitasMahasiswa) (a : AktivitasMahasiswa)
    (ha : a ∈ akt) (hp : parseHHMM a.waktu_mulai = none) :
    parse_waktu_mulai a.waktu_mulai = (12, 0) ∧
    jamAktivitas a = 12 ∧
    ∃ r, analisis_pola_waktu akt = .ok r := by
  have h12 : parse_waktu_mulai a.waktu_mulai = (12, 0) := by
    rw [parse_waktu_mulai, hp]
    rfl
  refine ⟨h12, ?_, ?_⟩
  · rw [jamAktivitas, h12]
  · have hne : akt.isEmpty = false := by
      cases akt with
      | nil => exact absurd ha (List.not_mem_nil a)
      | cons b l => rfl
    simp only [analisis_pola_waktu, hne, Bool.false_eq_true, if_false]
    exact ⟨_, rfl⟩

/-- C5, witness: the start time `"pagi hari"` does not parse; the activity is
bucketed at noon and the analysis succeeds. -/
theorem claim_C5_witness :
    parse_waktu_mulai aktRusak.waktu_mulai = (12, 0) ∧
    jamAktivitas aktRusak = 12 ∧
    ∃ r, analisis_pola_waktu aktivitasWaktuRusak = .ok r :=
  claim_C5 aktivitasWaktuRusak aktRusak (by decide) (by decide)

/-- C6: `analisis_pola_waktu` fails — with `EmptyDataError` — exactly on the
empty activity list, and `hitung_indeks_prokrastinasi` fails — with
`EmptyDataError` — exactly on the empty task list; in every other case each
returns a normal result. -/
theorem claim_C6 :
    (∀ akt : List AktivitasMahasiswa,
      (analisis_pola_waktu akt = .error .EmptyDataError ↔ akt = []) ∧
      (akt ≠ [] → ∃ r, analisis_pola_waktu akt = .ok r)) ∧
    (∀ (tugas : List TugasMahasiswa) (akt : List AktivitasMahasiswa),
      (hitung_indeks_prokrastinasi tugas akt = .error .EmptyDataError ↔
        tugas = []) ∧
      (tugas ≠ [] → ∃ m, hitung_indeks_prokrastinasi tugas akt = .ok m)) := by
  constructor
  · intro akt
    cases akt with
    | nil =>
      exact ⟨by simp [analisis_pola_waktu], fun hc => absurd rfl hc⟩
    | cons a l =>
      refine ⟨by simp [analisis_pola_waktu], fun _ => ?_⟩
      simp only [analisis_pola_waktu, List.isEmpty_cons, Bool.false_eq_true,
        if_false]
      exact ⟨_, rfl⟩
  · intro tugas akt
    cases tugas with
    | nil =>
      exact ⟨by simp [hitung_indeks_prokrastinasi], fun hc => absurd rfl hc⟩
    | cons t l =>
      refine ⟨by simp [hitung_indeks_prokrastinasi], fun _ => ?_⟩
      simp only [hitung_indeks_prokrastinasi, List.isEmpty_cons,
        Bool.false_eq_true, if_false]
      exact ⟨_, rfl⟩

/-- C6, witness: both functions on empty and one-element inputs. -/
theorem claim_C6_witness :
    analisis_pola_waktu [] = .error .EmptyDataError ∧
    (∃ r, analisis_pola_waktu satuAktivitas = .ok r) ∧
    hitung_indeks_prokrastinasi [] [] = .error .EmptyDataError ∧
    (∃ m, hitung_indeks_prokrastinasi satuTugas [] = .ok m) :=
  ⟨(claim_C6.1 []).1.mpr rfl,
   (claim_C6.1 satuAktivitas).2 (by decide),
   (claim_C6.2 [] []).1.mpr rfl,
   (claim_C6.2 satuTugas []).2 (by decide)⟩

/-- C7: whenever the deadline string parses (epoch day `d`), the prediction
succeeds and its `hari_tersisa` equals `max 0 ⌊d - now⌋` — the floor is
`timedelta.days` of `deadline − datetime.now()` — hence is never negative, even
for past deadlines; and whenever the deadline string does not parse, the call
fails with `InvalidDateFormatError`. -/
theorem claim_C7 (s : Sistem) (dl : String) (k : ℕ) (now : ℚ) :
    (∀ d : ℤ, parseTanggal dl = some d →
      ∃ p, (prediksi_risiko_tugas s dl k now).2 = .ok p ∧
        p.hari_tersisa = max 0 ⌊(d : ℚ) - now⌋ ∧ 0 ≤ p.hari_tersisa) ∧
    (parseTanggal dl = none →
      (prediksi_risiko_tugas s dl k now).2 = .error .InvalidDateFormatError) := by
  constructor
  · intro d hd
    simp only [prediksi_risiko_tugas, hd]
    refine ⟨_, rfl, ?_, ?_⟩
    · simp only [prediksiCore, ratFloor_eq_floor]
      rcases lt_or_le (⌊(d : ℚ) - now⌋) 0 with hlt | hle
      · rw [if_pos hlt, max_eq_left (le_of_lt hlt)]
      · rw [if_neg (not_lt.2 hle), max_eq_right hle]
    · simp only [prediksiCore]
      split_ifs with hlt
      · exact le_refl 0
      · exact le_of_not_lt hlt
  · intro hn
    simp only [prediksi_risiko_tugas, hn]

/-- C7, witness: a parsed deadline (2024-03-05, epoch day 19787) and an
unparseable one. -/
theorem claim_C7_witness :
    (∃ p, (prediksi_risiko_tugas sistemKosong "2024-03-05" 8 0).2 = .ok p ∧
      p.hari_tersisa = max 0 ⌊((19787 : ℤ) : ℚ) - 0⌋ ∧ 0 ≤ p.hari_tersisa) ∧
    (prediksi_risiko_tugas sistemKosong "tiga hari" 8 0).2 =
      .error .InvalidDateFormatError :=
  ⟨(claim_C7 sistemKosong "2024-03-05" 8 0).1 19787 (by decide),
   (claim_C7 sistemKosong "tiga hari" 8 0).2 (by decide)⟩

/-- C8: invoking the Scorer twice with the task and activity lists unchanged
yields the identical result both times (and the second call leaves the cached
snapshot exactly as the first call left it). -/
theorem claim_C8 (s : Sistem) :
    (hitungStep (hitungStep s).1).2 = (hitungStep s).2 ∧
    (hitungStep (hitungStep s).1).1 = (hitungStep s).1 := by
  cases h : hitung_indeks_prokrastinasi s.tugas s.aktivitas <;>
    constructor <;>
    simp [hitungStep, h]

/-! Facts about the completion-lag factor needed for C9. -/

theorem tugasSelesai_nonempty_iff (tugas : List TugasMahasiswa) :
    (tugasSelesai tugas).isEmpty = false ↔
      ∃ t ∈ tugas, t.tanggal_selesai.isSome := by
  constructor
  · intro hne
    by_contra hc
    push_neg at hc
    have hnil : tugasSelesai tugas = [] := by
      rw [tugasSelesai, List.filter_eq_nil_iff]
      intro t ht
      simpa using hc t ht
    rw [hnil] at hne
    simp at hne
  · rintro ⟨t, ht, hs⟩
    have hmem : t ∈ tugasSelesai tugas := by
      rw [tugasSelesai]
      exact List.mem_filter.2 ⟨ht, by simpa using hs⟩
    cases hsel : tugasSelesai tugas with
    | nil => rw [hsel] at hmem; exact absurd hmem (List.not_mem_nil t)
    | cons x xs => rfl

theorem faktorWaktu_isSome_iff (tugas : List TugasMahasiswa) :
    (faktorWaktuOf tugas).isSome ↔ ∃ t ∈ tugas, t.tanggal_selesai.isSome := by
  rw [faktorWaktuOf]
  by_cases he : (tugasSelesai tugas).isEmpty
  · have := (tugasSelesai_nonempty_iff tugas)
    rw [he] at this
    simp only [he, if_true, Option.isSome_none]
    simpa using this
  · have hne : (tugasSelesai tugas).isEmpty = false := by
      simpa using he
    simp only [hne, Bool.false_eq_true, if_false, Option.isSome_some]
    simpa using (tugasSelesai_nonempty_iff tugas).1 hne

theorem tugasSelesai_map_status (tugas : List TugasMahasiswa)
    (g : Status → Status) :
    tugasSelesai (tugas.map (fun t => { t with status := g t.status })) =
      (tugasSelesai tugas).map (fun t => { t with status := g t.status }) := by
  induction tugas with
  | nil => rfl
  | cons t l ih =>
    simp only [tugasSelesai, List.map_cons, List.filter_cons] at ih ⊢
    by_cases hs : t.tanggal_selesai.isSome <;> simp [hs, ih]

theorem rataWaktu_map_status (tugas : List TugasMahasiswa) (g : Status → Status) :
    rataWaktuPengerjaan (tugas.map (fun t => { t with status := g t.status })) =
      rataWaktuPengerjaan tugas := by
  rw [rataWaktuPengerjaan, rataWaktuPengerjaan, tugasSelesai_map_status,
    List.map_map, List.length_map]
  rfl

theorem faktorWaktu_status_blind (tugas : List TugasMahasiswa)
    (g : Status → Status) :
    faktorWaktuOf (tugas.map (fun t => { t with status := g t.status })) =
      faktorWaktuOf tugas := by
  rw [faktorWaktuOf, faktorWaktuOf, tugasSelesai_map_status,
    rataWaktu_map_status, List.length_map]
  by_cases he : (tugasSelesai tugas).isEmpty <;>
    simp only [List.isEmpty_iff] at he <;>
    simp [he, List.isEmpty_iff]

/-- C9: the completion-lag factor is present in the Scorer's breakdown (and
contributes its sub-score to the raw score) iff at least one task has
`tanggal_selesai`; when present, its mean is taken over exactly the tasks whose
`tanggal_selesai` is present; and the factor is entirely blind to the `status`
field, so late-but-uncompleted tasks are excluded regardless of status. -/
theorem claim_C9 (tugas : List TugasMahasiswa) (akt : List AktivitasMahasiswa)
    (h : tugas ≠ []) :
    ∃ m, hitung_indeks_prokrastinasi tugas akt = .ok m ∧
      (m.waktu_pengerjaan.isSome ↔ ∃ t ∈ tugas, t.tanggal_selesai.isSome) ∧
      (∀ f, m.waktu_pengerjaan = some f →
        f.rata_rata_hari = round2
          ((((tugas.filter (fun t => t.tanggal_selesai.isSome)).map
              (fun t => ((t.tanggal_selesai.getD 0 - t.tanggal_diberikan : ℤ) : ℚ))).sum) /
            (tugas.filter (fun t => t.tanggal_selesai.isSome)).length) ∧
        f.jumlah_tugas_selesai =
          (tugas.filter (fun t => t.tanggal_selesai.isSome)).length) ∧
      (∀ g : Status → Status,
        faktorWaktuOf (tugas.map (fun t => { t with status := g t.status })) =
          faktorWaktuOf tugas) ∧
      m.skor_mentah = m.keterlambatan.skor +
        (m.waktu_pengerjaan.map (·.skor)).getD 0 +
        (m.rasio_hiburan.map (·.skor)).getD 0 +
        (m.konsistensi.map (·.skor)).getD 0 := by
  have hne : tugas.isEmpty = false := by simpa [List.isEmpty_iff] using h
  simp only [hitung_indeks_prokrastinasi, hne, Bool.false_eq_true, if_false]
  refine ⟨_, rfl, ?_, ?_, faktorWaktu_status_blind tugas, ?_⟩
  · simpa [hitungCore] using faktorWaktu_isSome_iff tugas
  · intro f hf
    simp only [hitungCore] at hf
    rw [faktorWaktuOf] at hf
    split_ifs at hf
    all_goals (injection hf with h2; subst h2; exact ⟨rfl, rfl⟩)
  · simp only [hitungCore, skorMentahOf]

/-- C9, witness: a one-element task list whose task is completed. -/
theorem claim_C9_witness :
    ∃ m, hitung_indeks_prokrastinasi satuTugas [] = .ok m ∧
      (m.waktu_pengerjaan.isSome ↔ ∃ t ∈ satuTugas, t.tanggal_selesai.isSome) ∧
      (∀ f, m.waktu_pengerjaan = some f →
        f.rata_rata_hari = round2
          ((((satuTugas.filter (fun t => t.tanggal_selesai.isSome)).map
              (fun t => ((t.tanggal_selesai.getD 0 - t.tanggal_diberikan : ℤ) : ℚ))).sum) /
            (satuTugas.filter (fun t => t.tanggal_selesai.isSome)).length) ∧
        f.jumlah_tugas_selesai =
          (satuTugas.filter (fun t => t.tanggal_selesai.isSome)).length) ∧
      (∀ g : Status → Status,
        faktorWaktuOf (satuTugas.map (fun t => { t with status := g t.status })) =
          faktorWaktuOf satuTugas) ∧
      m.skor_mentah = m.keterlambatan.skor +
        (m.waktu_pengerjaan.map (·.skor)).getD 0 +
        (m.rasio_hiburan.map (·.skor)).getD 0 +
        (m.konsistensi.map (·.skor)).getD 0 :=
  claim_C9 satuTugas [] (by decide)

/-- C10: with an empty task list and no cached snapshot, the triggered Scorer
recomputation inside the Risk Predictor returns its `EmptyDataError` result
without writing the cache (the state comes back unchanged), and the predictor
proceeds with the default normalized score 5.0, producing a normal
prediction. -/
theorem claim_C10 (s : Sistem) (dl : String) (d : ℤ) (k : ℕ) (now : ℚ)
    (h1 : s.tugas = []) (h2 : s.metrik_prokrastinasi = none)
    (h3 : parseTanggal dl = some d) :
    hitungStep s = (s, .error .EmptyDataError) ∧
    prediksi_risiko_tugas s dl k now = (s, .ok (prediksiCore 5 dl d k now)) := by
  have hh : hitungStep s = (s, .error .EmptyDataError) := by
    rw [hitungStep]
    simp [hitung_indeks_prokrastinasi, h1]
  refine ⟨hh, ?_⟩
  rw [prediksi_risiko_tugas]
  simp only [h2, Option.isNone_none, if_true, hh, h3]

/-- C10, witness: the empty session with deadline 2024-03-05 (epoch day
19787). -/
theorem claim_C10_witness :
    hitungStep sistemKosong = (sistemKosong, .error .EmptyDataError) ∧
    prediksi_risiko_tugas sistemKosong "2024-03-05" 8 0 =
      (sistemKosong, .ok (prediksiCore 5 "2024-03-05" 19787 8 0)) :=
  claim_C10 sistemKosong "2024-03-05" 19787 8 0 rfl rfl (by decide)

end Deteksi
